import Mathlib

/-!
Shallow embedding of the MAVLink link-lifecycle controller
(src/App.tsx, interval-polling variant; src/unnamed/part_000,
event-driven variant).  The transport collaborator
(lib-mavlink-connect's connectionManager) is external to the
repository; where its behaviour decides a claim it is modelled from
the spec's contract (section 6) and marked as such.
-/

namespace Mavlink

/-- Connection status enum (spec section 3, mirrored by the string
literals used in src/App.tsx). -/
inductive LinkStatus where
  | DISCONNECTED
  | CONNECTING
  | CONNECTED
  | ERROR
deriving DecidableEq, Repr

/-- Connection mode enum, the ExtendedConnectionMode of src/App.tsx
(TCP and UDP from lib-mavlink-connect plus the SERIAL extension). -/
inductive ConnectionMode where
  | TCP
  | UDP
  | SERIAL
deriving DecidableEq, Repr

/-- The SerialDevice interface of src/App.tsx lines 27-33. -/
structure SerialDevice where
  id : Nat
  path : String
  name : String
  vendorId : Option String := none
  productId : Option String := none
deriving DecidableEq, Repr

/-- A telemetry sample (MavlinkData): an opaque keyed object, embedded
as an association list; Object.keys(data).length is its length. -/
def MavlinkData : Type := List (String × String)

instance : DecidableEq MavlinkData := by
  unfold MavlinkData
  infer_instance

/-- The connectionManager's observable state, ConnectionState of
lib-mavlink-connect: status plus optional error message. -/
structure ManagerState where
  status : LinkStatus
  error : Option String := none
deriving DecidableEq, Repr

/-- Transport Service operations the controller can invoke on the
external connectionManager (spec section 6 contract). -/
inductive TransportOp where
  | startConnection (mode : ConnectionMode)
  | connectSerialDevice (id : Nat) (path : String) (baud : Option Nat)
  | stopConnection
  | cleanup
  | getMavlinkData
  | sendSerialData (path : String) (bytes : List Nat)
  | sendGuidedCommand (name : String)
deriving DecidableEq, Repr

/-- Modelled from the spec: the effect of the external
connectionManager.stopConnection() teardown (spec section 6,
implementation not under src/).  Teardown stops the link: the
resulting snapshot is DISCONNECTED with no error, matching spec
section 4.1's requirement that explicit teardown ends in
DISCONNECTED, never ERROR. -/
def stopConnectionEffect (_m : ManagerState) : ManagerState :=
  { status := LinkStatus.DISCONNECTED, error := none }

/-- JavaScript truthiness fallback for strings: s || d is d when s is
undefined or the empty string. -/
def jsOrStr (o : Option String) (d : String) : String :=
  match o with
  | none => d
  | some s => if s = "" then d else s

/-- JavaScript truthiness fallback for numbers: n || d is d when n is
undefined or 0. -/
def jsOrNat (o : Option Nat) (d : Nat) : Nat :=
  match o with
  | none => d
  | some n => if n = 0 then d else n

/-- parseInt(s, 10): leading decimal digits, NaN (none) when there are
none. -/
def jsParseInt (s : String) : Option Nat :=
  let ds := s.toList.takeWhile Char.isDigit
  if ds.isEmpty then none
  else some (ds.foldl (fun n c => n * 10 + (c.toNat - 48)) 0)

/-- The string rendering of a connection mode, as interpolated into
messages by src/App.tsx. -/
def modeName : ConnectionMode → String
  | ConnectionMode.TCP => "TCP"
  | ConnectionMode.UDP => "UDP"
  | ConnectionMode.SERIAL => "SERIAL"

/-- The component state of MavlinkComponent (src/App.tsx lines 42-59)
together with the externally-owned manager snapshot.  timeoutRef
embeds connectionTimeoutRef (Option of a timer handle), pollerRunning
embeds dataIntervalRef being non-null, lastError the message surfaced
for the most recent failure. -/
structure AppState where
  manager : ManagerState
  mavlinkData : Option MavlinkData
  isConnecting : Bool
  selectedMode : ConnectionMode
  availableDevices : List SerialDevice
  selectedDevice : Option SerialDevice
  baudRate : String
  timeoutRef : Option Nat
  pollerRunning : Bool
  lastError : Option String
deriving DecidableEq

/-- handleConnectionError (src/App.tsx lines 133-157): stop polling,
stop the connection, additionally cleanup for SERIAL, reset the local
connecting flag, clear the sample, surface the message. -/
def handleConnectionError (s : AppState) (msg : String) :
    AppState × List TransportOp :=
  ({ s with
      pollerRunning := false,
      manager := stopConnectionEffect s.manager,
      isConnecting := false,
      mavlinkData := none,
      lastError := some msg },
   [TransportOp.stopConnection] ++
     (if s.selectedMode = ConnectionMode.SERIAL then [TransportOp.cleanup]
      else []))

/-- The catch block of handleConnect (src/App.tsx lines 301-324):
clear the watchdog timer, reset the connecting flag, alert the error,
then best-effort teardown (stopConnection, plus cleanup for SERIAL). -/
def handleConnectCatch (s : AppState) (ops : List TransportOp)
    (msg : String) : AppState × List TransportOp :=
  ({ s with
      timeoutRef := none,
      isConnecting := false,
      lastError := some msg,
      manager := stopConnectionEffect s.manager },
   ops ++ [TransportOp.stopConnection] ++
     (if s.selectedMode = ConnectionMode.SERIAL then [TransportOp.cleanup]
      else []))

instance exceptDecidableEq {ε α : Type} [DecidableEq ε] [DecidableEq α] :
    DecidableEq (Except ε α) := fun a b =>
  match a, b with
  | Except.ok x, Except.ok y =>
    if h : x = y then isTrue (by rw [h]) else isFalse (by simp [h])
  | Except.error x, Except.error y =>
    if h : x = y then isTrue (by rw [h]) else isFalse (by simp [h])
  | Except.ok _, Except.error _ => isFalse (by simp)
  | Except.error _, Except.ok _ => isFalse (by simp)

/-- Externally-determined outcomes of one connection attempt's
suspension points: whether startConnection resolves, whether
connectSerialDevice resolves and its boolean, the manager snapshot
re-read by getState() after the 2000 ms settle wait, and the outcome
of the post-connect test fetch. -/
structure TransportBehavior where
  startOk : Except String Unit
  deviceOk : Except String Bool
  settled : ManagerState
  testFetch : Except String (Option MavlinkData)
deriving DecidableEq

/-- The tail of handleConnect after the handshake calls resolved
(src/App.tsx lines 269-299): clear the watchdog timer, wait the fixed
2000 ms settle interval, re-read getState(); when the re-read status
is not CONNECTED route the attempt into handleConnectionError and
return, otherwise run the test fetch (warnings only) and clear the
connecting flag. -/
def handleConnectSettle (s : AppState) (ops : List TransportOp)
    (tb : TransportBehavior) : AppState × List TransportOp :=
  let s := { s with timeoutRef := none }
  if tb.settled.status ≠ LinkStatus.CONNECTED then
    let msg := jsOrStr tb.settled.error
      (modeName s.selectedMode ++ " connection failed - unreachable")
    let r := handleConnectionError s msg
    (r.1, ops ++ r.2)
  else
    ({ s with isConnecting := false },
     ops ++ [TransportOp.getMavlinkData])

/-- handleConnect (src/App.tsx lines 219-325): set the connecting
flag, clear any existing watchdog timer and arm a fresh one
(freshTimer), then for SERIAL require a selected device and run the
two-step handshake (startConnection then connectSerialDevice, a false
device result throws), for TCP/UDP the single-step handshake; any
thrown error lands in handleConnectCatch, a resolved handshake
continues in handleConnectSettle. -/
def handleConnect (s : AppState) (tb : TransportBehavior)
    (freshTimer : Nat) : AppState × List TransportOp :=
  let s1 := { s with isConnecting := true, timeoutRef := some freshTimer }
  if s.selectedMode = ConnectionMode.SERIAL then
    match s.selectedDevice with
    | none => handleConnectCatch s1 [] "No serial device selected"
    | some dev =>
      match tb.startOk with
      | Except.error e =>
          handleConnectCatch s1
            [TransportOp.startConnection ConnectionMode.SERIAL] e
      | Except.ok _ =>
        let ops := [TransportOp.startConnection ConnectionMode.SERIAL,
          TransportOp.connectSerialDevice dev.id dev.path
            (jsParseInt s.baudRate)]
        match tb.deviceOk with
        | Except.error e => handleConnectCatch s1 ops e
        | Except.ok false =>
            handleConnectCatch s1 ops
              ("Failed to connect to serial device " ++ dev.path)
        | Except.ok true => handleConnectSettle s1 ops tb
  else
    match tb.startOk with
    | Except.error e =>
        handleConnectCatch s1
          [TransportOp.startConnection s.selectedMode] e
    | Except.ok _ =>
        handleConnectSettle s1
          [TransportOp.startConnection s.selectedMode] tb

/-- handleDisconnect (src/App.tsx lines 327-353): reset the connecting
flag, clear the watchdog timer, stopConnection, additionally cleanup
for SERIAL, stop telemetry polling, clear the sample. -/
def handleDisconnect (s : AppState) : AppState × List TransportOp :=
  ({ s with
      isConnecting := false,
      timeoutRef := none,
      manager := stopConnectionEffect s.manager,
      pollerRunning := false,
      mavlinkData := none },
   [TransportOp.stopConnection] ++
     (if s.selectedMode = ConnectionMode.SERIAL then [TransportOp.cleanup]
      else []))

/-- One cycle of fetchMavlinkData inside startTelemetryPolling
(src/App.tsx lines 102-117), with the fetch outcome as input: on
success publish the sample (an empty-keyed sample is only logged, not
treated as failure); on a thrown fetch error route into
handleConnectionError. -/
def fetchMavlinkData (s : AppState)
    (r : Except String (Option MavlinkData)) :
    AppState × List TransportOp :=
  match r with
  | Except.ok d => ({ s with mavlinkData := d }, [TransportOp.getMavlinkData])
  | Except.error _ =>
    let r := handleConnectionError s "Failed to fetch MAVLink data"
    (r.1, TransportOp.getMavlinkData :: r.2)

/-- A raw device descriptor as returned by getSerialDeviceInfo
(fields optional, matching the defensive reads in src/App.tsx lines
170-180). -/
structure RawDevice where
  id : Option Nat := none
  path : Option String := none
  name : Option String := none
  vendorId : Option String := none
  productId : Option String := none
deriving DecidableEq, Repr

/-- Normalisation of one raw descriptor at a given index
(src/App.tsx lines 171-179), with JavaScript || fallbacks. -/
def normalizeDevice (index : Nat) (d : RawDevice) : SerialDevice :=
  { id := jsOrNat d.id index,
    path := jsOrStr d.path ("/dev/ttyUSB" ++ toString index),
    name := jsOrStr d.name ("Serial Device " ++ toString (index + 1)),
    vendorId := d.vendorId,
    productId := d.productId }

/-- The four conventional fallback paths of src/App.tsx line 194. -/
def commonPaths : List String :=
  ["/dev/ttyUSB0", "/dev/ttyUSB1", "/dev/ttyACM0", "/dev/ttyACM1"]

/-- The synthetic fallback device list built from commonPaths
(src/App.tsx lines 193-202). -/
def fallbackDevices : List SerialDevice :=
  commonPaths.enum.map (fun p =>
    { id := p.1, path := p.2, name := "Serial Port " ++ p.2 })

/-- scanForSerialDevices (src/App.tsx lines 159-217), as a function of
the enumeration result and the currently selected device: normalise
the descriptors, substitute the fallback list when empty, and
auto-select the first device when none is selected.  Returns the new
availableDevices and the new selectedDevice. -/
def scanForSerialDevices (deviceInfo : List RawDevice)
    (selectedDevice : Option SerialDevice) :
    List SerialDevice × Option SerialDevice :=
  let devices := deviceInfo.enum.map (fun p => normalizeDevice p.1 p.2)
  let devices := if devices.length = 0 then fallbackDevices else devices
  let sel :=
    match selectedDevice, devices with
    | none, d :: _ => some d
    | _, _ => selectedDevice
  (devices, sel)

/-- The fixed heartbeat byte array of handleSendSerialData
(src/App.tsx line 388). -/
def heartbeatData : List Nat :=
  [0xFE, 0x09, 0x00, 0x01, 0x01, 0x00, 0x00, 0x00, 0x04, 0x08, 0x00,
   0x00, 0x03]

/-! Watchdog timer handling.  src/App.tsx keeps a single shared
connectionTimeoutRef; arming (lines 223-235) first clears whatever
handle the ref currently holds and stores a fresh one, disarming
(lines 269-273, and again at 305-308 and 332-335) clears whatever
handle the ref currently holds.  The model records every handle
passed to clearTimeout. -/

/-- The shared connectionTimeoutRef together with a fresh-handle
counter and the list of handles that have been passed to
clearTimeout, in order. -/
structure TimerState where
  nextId : Nat
  current : Option Nat
  cancelled : List Nat
deriving DecidableEq, Repr

/-- Arming the watchdog at the start of handleConnect
(src/App.tsx lines 223-235): clear any handle currently in the shared
ref, then store a fresh handle.  Returns the new state and the
attempt's own handle. -/
def armWatchdog (ts : TimerState) : TimerState × Nat :=
  let cancelled :=
    match ts.current with
    | some t => ts.cancelled ++ [t]
    | none => ts.cancelled
  ({ nextId := ts.nextId + 1, current := some ts.nextId,
     cancelled := cancelled }, ts.nextId)

/-- Disarming on attempt resolution (src/App.tsx lines 269-273):
clearTimeout(connectionTimeoutRef.current) — whichever handle the
shared ref currently holds — then null the ref. -/
def disarmWatchdog (ts : TimerState) : TimerState :=
  match ts.current with
  | some t => { ts with current := none, cancelled := ts.cancelled ++ [t] }
  | none => ts

/-! The hex-payload decoder.  The spec (sections 4.4, 7, 8) describes
hex decoding of serial payloads, but no such decoder appears under
src/; it is modelled from the spec below. -/

/-- The error taxonomy member for locally-rejected malformed payload
input (spec section 7). -/
inductive SendError where
  | MalformedInput
deriving DecidableEq, Repr

/-- The numeric value of one hex digit, none for a non-hex-digit
character. -/
def hexDigitVal (c : Char) : Option Nat :=
  if '0' ≤ c ∧ c ≤ '9' then some (c.toNat - 48)
  else if 'A' ≤ c ∧ c ≤ 'F' then some (c.toNat - 55)
  else if 'a' ≤ c ∧ c ≤ 'f' then some (c.toNat - 87)
  else none

/-- Modelled from the spec: pairing of hex digits into bytes — the
digits must pair up exactly (an odd count or a non-hex digit is
MalformedInput).  The decoder itself is absent from src/. -/
def hexPairs : List Char → Except SendError (List Nat)
  | [] => Except.ok []
  | [_] => Except.error SendError.MalformedInput
  | a :: b :: rest =>
    match hexDigitVal a, hexDigitVal b with
    | some x, some y =>
      match hexPairs rest with
      | Except.ok l => Except.ok ((16 * x + y) :: l)
      | Except.error e => Except.error e
    | _, _ => Except.error SendError.MalformedInput

/-- Modelled from the spec: the whitespace-insensitive hex decoder of
section 4.4 — strip whitespace anywhere, then decode whole bytes.
Absent from src/. -/
def decodeHex (s : String) : Except SendError (List Nat) :=
  hexPairs (s.toList.filter (fun c => ¬ c.isWhitespace))

/-- Modelled from the spec: the dispatcher path for a hex payload —
decode first; only a successful decode reaches the transport's
sendSerialData, a MalformedInput decode is rejected locally with no
transport operation.  Absent from src/. -/
def sendHexPayload (path : String) (input : String) :
    Except SendError Unit × List TransportOp :=
  match decodeHex input with
  | Except.error e => (Except.error e, [])
  | Except.ok bytes =>
    (Except.ok (), [TransportOp.sendSerialData path bytes])

/-! The event-driven variant (src/unnamed/part_000). -/

/-- One entry of the event-driven variant's telemetry log: the parsed
sample spread together with the arrival-time string
(src/unnamed/part_000 lines 14-17). -/
structure LogEntry where
  data : MavlinkData
  time : String
deriving DecidableEq

/-- JavaScript Array.prototype.slice with a negative start index -k:
the last k elements (the whole list when shorter than k). -/
def jsSliceLast {α : Type} (k : Nat) (l : List α) : List α :=
  l.drop (l.length - k)

/-- The MavlinkDataUpdate listener of src/unnamed/part_000 lines
10-22, with the JSON.parse outcome as input (error for a throw, ok
none for a parse to null): a successfully parsed value with at least
one key is appended after slicing the log to its last 19 entries; a
parse failure or an empty-keyed value leaves the log unchanged. -/
def onMavlinkDataUpdate (log : List LogEntry)
    (payload : Except Unit (Option MavlinkData)) (time : String) :
    List LogEntry :=
  match payload with
  | Except.error _ => log
  | Except.ok none => log
  | Except.ok (some d) =>
    if 0 < d.length then jsSliceLast 19 log ++ [⟨d, time⟩] else log

/-! Concrete states used to instantiate and refute claims. -/

/-- A state in SERIAL mode with no device selected and a disconnected
manager. -/
def c1SerialNoDevice : AppState :=
  { manager := { status := LinkStatus.DISCONNECTED, error := none },
    mavlinkData := none,
    isConnecting := false,
    selectedMode := ConnectionMode.SERIAL,
    availableDevices := [],
    selectedDevice := none,
    baudRate := "57600",
    timeoutRef := none,
    pollerRunning := false,
    lastError := none }

/-- A state in SERIAL mode with no device selected whose manager is in
ERROR (connect is offered again after a failed attempt, the connect
button being disabled only while connecting or connected). -/
def c1SerialNoDeviceError : AppState :=
  { manager := { status := LinkStatus.ERROR, error := some "handshake failed" },
    mavlinkData := none,
    isConnecting := false,
    selectedMode := ConnectionMode.SERIAL,
    availableDevices := [],
    selectedDevice := none,
    baudRate := "57600",
    timeoutRef := none,
    pollerRunning := false,
    lastError := none }

/-- A transport behaviour whose handshake resolves but whose
post-settle re-read still shows CONNECTING. -/
def c1OptimisticTb : TransportBehavior :=
  { startOk := Except.ok (),
    deviceOk := Except.ok true,
    settled := { status := LinkStatus.CONNECTING, error := none },
    testFetch := Except.ok none }

/-- C1, counterexample: the claim asserts the connection status is
unchanged by every connect(SERIAL) call made with no device selected,
but a call made while the manager is in ERROR runs the catch-block
teardown (stopConnection, cleanup), after which the status is
DISCONNECTED — the status did change. -/
theorem c1_counterexample :
    c1SerialNoDeviceError.selectedMode = ConnectionMode.SERIAL ∧
    c1SerialNoDeviceError.selectedDevice = none ∧
    c1SerialNoDeviceError.manager.status = LinkStatus.ERROR ∧
    (handleConnect c1SerialNoDeviceError c1OptimisticTb 1).1.manager.status =
      LinkStatus.DISCONNECTED ∧
    LinkStatus.DISCONNECTED ≠ LinkStatus.ERROR := by
  decide

/-- C1, amended: a connect call in SERIAL mode with no device selected
fails with the InvalidConfiguration error "No serial device selected",
thrown before any Transport Service operation; the only transport
operations the call performs are the catch-block teardown
(stopConnection then cleanup) — no startConnection and no
connectSerialDevice — and when the call is made while DISCONNECTED the
status is unchanged (from ERROR the teardown resets it to
DISCONNECTED). -/
theorem c1_serial_no_device (s : AppState) (tb : TransportBehavior)
    (t : Nat) (hm : s.selectedMode = ConnectionMode.SERIAL)
    (hd : s.selectedDevice = none) :
    (handleConnect s tb t).1.lastError = some "No serial device selected" ∧
    (handleConnect s tb t).2 =
      [TransportOp.stopConnection, TransportOp.cleanup] ∧
    (∀ mode, TransportOp.startConnection mode ∉ (handleConnect s tb t).2) ∧
    (∀ i p b, TransportOp.connectSerialDevice i p b ∉ (handleConnect s tb t).2) ∧
    (s.manager.status = LinkStatus.DISCONNECTED →
      (handleConnect s tb t).1.manager.status = s.manager.status) := by
  refine ⟨?_, ?_, ?_, ?_, ?_⟩ <;>
    simp [handleConnect, hm, hd, handleConnectCatch, stopConnectionEffect]
  intro h
  exact h.symm

/-- C1, witness: the amended theorem applied to a concrete
disconnected SERIAL state with no device selected. -/
theorem c1_witness :
    c1SerialNoDevice.selectedMode = ConnectionMode.SERIAL ∧
    c1SerialNoDevice.selectedDevice = none ∧
    ((handleConnect c1SerialNoDevice c1OptimisticTb 7).1.lastError =
        some "No serial device selected" ∧
     (handleConnect c1SerialNoDevice c1OptimisticTb 7).2 =
        [TransportOp.stopConnection, TransportOp.cleanup] ∧
     (∀ mode, TransportOp.startConnection mode ∉
        (handleConnect c1SerialNoDevice c1OptimisticTb 7).2) ∧
     (∀ i p b, TransportOp.connectSerialDevice i p b ∉
        (handleConnect c1SerialNoDevice c1OptimisticTb 7).2) ∧
     (c1SerialNoDevice.manager.status = LinkStatus.DISCONNECTED →
       (handleConnect c1SerialNoDevice c1OptimisticTb 7).1.manager.status =
         c1SerialNoDevice.manager.status)) :=
  ⟨rfl, rfl, c1_serial_no_device c1SerialNoDevice c1OptimisticTb 7 rfl rfl⟩

/-- A TCP state with a disconnected manager. -/
def c2TcpState : AppState :=
  { manager := { status := LinkStatus.DISCONNECTED, error := none },
    mavlinkData := none,
    isConnecting := false,
    selectedMode := ConnectionMode.TCP,
    availableDevices := [],
    selectedDevice := none,
    baudRate := "57600",
    timeoutRef := none,
    pollerRunning := true,
    lastError := none }

/-- A transport behaviour whose handshake resolves but whose settle
re-read still shows CONNECTING. -/
def c2OptimisticTb : TransportBehavior :=
  { startOk := Except.ok (),
    deviceOk := Except.ok true,
    settled := { status := LinkStatus.CONNECTING, error := none },
    testFetch := Except.ok none }

/-- C2, counterexample: the claim asserts the failed settle-check ends
with final status ERROR, but the code routes the failure through
handleConnectionError, whose teardown (stopConnection) leaves the
status DISCONNECTED, not ERROR. -/
theorem c2_counterexample :
    c2OptimisticTb.startOk = Except.ok () ∧
    c2OptimisticTb.settled.status ≠ LinkStatus.CONNECTED ∧
    (handleConnect c2TcpState c2OptimisticTb 1).1.manager.status =
      LinkStatus.DISCONNECTED ∧
    (handleConnect c2TcpState c2OptimisticTb 1).1.manager.status ≠
      LinkStatus.ERROR := by
  decide

/-- C2, amended: when the handshake calls resolve successfully but the
post-settle re-read of getState() is not CONNECTED, the attempt
resolves as failed through the connection-error handler: the final
status is never CONNECTED (the teardown leaves it DISCONNECTED rather
than ERROR), the poller is stopped and the connecting flag cleared. -/
theorem c2_settle_check (s : AppState) (tb : TransportBehavior) (t : Nat)
    (hstart : tb.startOk = Except.ok ())
    (hdev : tb.deviceOk = Except.ok true)
    (hsel : s.selectedMode = ConnectionMode.SERIAL → s.selectedDevice.isSome)
    (hsettle : tb.settled.status ≠ LinkStatus.CONNECTED) :
    (handleConnect s tb t).1.manager.status = LinkStatus.DISCONNECTED ∧
    (handleConnect s tb t).1.manager.status ≠ LinkStatus.CONNECTED ∧
    (handleConnect s tb t).1.pollerRunning = false ∧
    (handleConnect s tb t).1.isConnecting = false := by
  by_cases hm : s.selectedMode = ConnectionMode.SERIAL
  · obtain ⟨dev, hdev2⟩ := Option.isSome_iff_exists.mp (hsel hm)
    simp [handleConnect, hm, hdev2, hstart, hdev, handleConnectSettle,
      hsettle, handleConnectionError, stopConnectionEffect]
  · simp [handleConnect, hm, hstart, handleConnectSettle, hsettle,
      handleConnectionError, stopConnectionEffect]

/-- C2, witness: the amended theorem applied to a concrete TCP attempt
whose settle re-read shows CONNECTING. -/
theorem c2_witness :
    c2OptimisticTb.startOk = Except.ok () ∧
    c2OptimisticTb.deviceOk = Except.ok true ∧
    (c2TcpState.selectedMode = ConnectionMode.SERIAL →
      c2TcpState.selectedDevice.isSome) ∧
    c2OptimisticTb.settled.status ≠ LinkStatus.CONNECTED ∧
    ((handleConnect c2TcpState c2OptimisticTb 1).1.manager.status =
        LinkStatus.DISCONNECTED ∧
     (handleConnect c2TcpState c2OptimisticTb 1).1.manager.status ≠
        LinkStatus.CONNECTED ∧
     (handleConnect c2TcpState c2OptimisticTb 1).1.pollerRunning = false ∧
     (handleConnect c2TcpState c2OptimisticTb 1).1.isConnecting = false) :=
  ⟨rfl, rfl, by decide, by decide,
    c2_settle_check c2TcpState c2OptimisticTb 1 rfl rfl (by decide) (by decide)⟩

/-- C3: handleDisconnect from any state leaves the status DISCONNECTED
(hence never ERROR), the poller stopped, the watchdog timer cleared
and no current telemetry sample. -/
theorem c3_disconnect_always_clean (s : AppState) :
    (handleDisconnect s).1.manager.status = LinkStatus.DISCONNECTED ∧
    (handleDisconnect s).1.manager.status ≠ LinkStatus.ERROR ∧
    (handleDisconnect s).1.pollerRunning = false ∧
    (handleDisconnect s).1.timeoutRef = none ∧
    (handleDisconnect s).1.mavlinkData = none := by
  simp [handleDisconnect, stopConnectionEffect]

/-- C4, counterexample: the claim asserts the watchdog is disarmed by
cancelling the handle of that specific attempt, never whichever timer
is currently set.  In the code the disarm clears the shared
connectionTimeoutRef: attempt A arms handle 0, an overlapping attempt
B arms handle 1 (cancelling 0), and A's resolution then cancels
handle 1 — B's timer, not A's own handle 0. -/
theorem c4_counterexample :
    (armWatchdog { nextId := 0, current := none, cancelled := [] }).2 = 0 ∧
    (armWatchdog
      (armWatchdog { nextId := 0, current := none, cancelled := [] }).1).2 = 1 ∧
    (disarmWatchdog
      (armWatchdog
        (armWatchdog { nextId := 0, current := none, cancelled := [] }).1).1).cancelled
      = [0, 1] ∧
    (1 : Nat) ≠ 0 := by
  decide

/-- C4, amended: the code disarms the watchdog by cancelling whichever
handle the shared connectionTimeoutRef currently holds and nulling the
ref; when the attempt's own handle is still the one set (no
overlapping attempt has re-armed the ref), this cancels exactly that
attempt's handle — but, as the counterexample shows, an overlapping
attempt's timer can be cancelled by an earlier attempt's resolution,
because the disarm is keyed to the shared ref, not to the specific
attempt. -/
theorem c4_disarm_current_handle (ts : TimerState) (t : Nat)
    (h : ts.current = some t) :
    (disarmWatchdog ts).current = none ∧
    (disarmWatchdog ts).cancelled = ts.cancelled ++ [t] := by
  simp [disarmWatchdog, h]

/-- C4, witness: the amended theorem applied to a ref currently
holding handle 3. -/
theorem c4_witness :
    (TimerState.mk 5 (some 3) [1]).current = some 3 ∧
    ((disarmWatchdog (TimerState.mk 5 (some 3) [1])).current = none ∧
     (disarmWatchdog (TimerState.mk 5 (some 3) [1])).cancelled = [1] ++ [3]) :=
  ⟨rfl, c4_disarm_current_handle (TimerState.mk 5 (some 3) [1]) 3 rfl⟩

/-- C5: one poll cycle — a fetched empty-keyed sample leaves the
manager state (hence the status) and the poller untouched and is
published as the current sample, while a fetch that throws routes into
the connection-error path: the poller is stopped (no further cycle),
the teardown stopConnection is among the operations performed, and the
fetch-failure message is surfaced. -/
theorem c5_poll_cycle (s : AppState) (e : String) :
    ((fetchMavlinkData s (Except.ok (some ([] : MavlinkData)))).1.manager =
        s.manager ∧
     (fetchMavlinkData s (Except.ok (some ([] : MavlinkData)))).1.mavlinkData =
        some ([] : MavlinkData) ∧
     (fetchMavlinkData s (Except.ok (some ([] : MavlinkData)))).1.pollerRunning =
        s.pollerRunning ∧
     (fetchMavlinkData s (Except.ok (some ([] : MavlinkData)))).2 =
        [TransportOp.getMavlinkData]) ∧
    ((fetchMavlinkData s (Except.error e)).1.pollerRunning = false ∧
     TransportOp.stopConnection ∈ (fetchMavlinkData s (Except.error e)).2 ∧
     (fetchMavlinkData s (Except.error e)).1.lastError =
        some "Failed to fetch MAVLink data") := by
  refine ⟨⟨rfl, rfl, rfl, rfl⟩, ?_, ?_, ?_⟩ <;>
    simp [fetchMavlinkData, handleConnectionError, stopConnectionEffect]

/-- C6: a scan whose enumeration yields zero devices produces exactly
the four conventional fallback paths, in their fixed order, a
non-empty list; and when no device is currently selected the first
fallback entry is auto-selected. -/
theorem c6_scan_fallback :
    (∀ sel : Option SerialDevice,
      (scanForSerialDevices [] sel).1 = fallbackDevices ∧
      (scanForSerialDevices [] sel).1.map SerialDevice.path = commonPaths ∧
      (scanForSerialDevices [] sel).1.length = 4 ∧
      (scanForSerialDevices [] sel).1 ≠ []) ∧
    (scanForSerialDevices [] none).2 =
      some { id := 0, path := "/dev/ttyUSB0",
             name := "Serial Port /dev/ttyUSB0" } := by
  refine ⟨fun sel =>
    ⟨rfl,
     (by decide : fallbackDevices.map SerialDevice.path = commonPaths),
     (by decide : fallbackDevices.length = 4),
     (by decide : fallbackDevices ≠ [])⟩,
    by decide⟩

/-- When the whitespace-stripped digits have odd length or contain a
non-hex-digit character, the pairing decoder fails with
MalformedInput. -/
theorem hexPairs_malformed :
    ∀ l : List Char,
      (l.length % 2 = 1 ∨ ∃ c ∈ l, hexDigitVal c = none) →
      hexPairs l = Except.error SendError.MalformedInput := by
  have key : ∀ l : List Char,
      ((l.length % 2 = 1 ∨ ∃ c ∈ l, hexDigitVal c = none) →
        hexPairs l = Except.error SendError.MalformedInput) ∧
      (∀ a : Char,
        ((a :: l).length % 2 = 1 ∨ ∃ c ∈ a :: l, hexDigitVal c = none) →
        hexPairs (a :: l) = Except.error SendError.MalformedInput) := by
    intro l
    induction l with
    | nil =>
      refine ⟨fun h => ?_, fun a h => ?_⟩
      · simp at h
      · simp [hexPairs]
    | cons b t ih =>
      refine ⟨ih.2 b, fun a h => ?_⟩
      rcases ha : hexDigitVal a with _ | x
      · simp [hexPairs, ha]
      · rcases hb : hexDigitVal b with _ | y
        · simp [hexPairs, ha, hb]
        · have ht : t.length % 2 = 1 ∨ ∃ c ∈ t, hexDigitVal c = none := by
            rcases h with h | ⟨c, hc, hcv⟩
            · left
              simp only [List.length_cons] at h
              omega
            · right
              rcases List.mem_cons.mp hc with rfl | hc2
              · rw [ha] at hcv
                exact absurd hcv (by simp)
              · rcases List.mem_cons.mp hc2 with rfl | hc3
                · rw [hb] at hcv
                  exact absurd hcv (by simp)
                · exact ⟨c, hc3, hcv⟩
          simp [hexPairs, ha, hb, ih.1 ht]
  exact fun l => (key l).1

/-- C7: the hex decoder maps the input FE 09 00 (whitespace stripped)
to the bytes 254, 9, 0; the odd-length input FE9 is rejected with
MalformedInput and no transport operation is performed; and in general
every input whose stripped hex digits have odd length or contain a
non-hex-digit character is rejected with MalformedInput with no
transport send.  (The decoder is modelled from the spec: it is not
present under src/.) -/
theorem c7_hex_decoder :
    decodeHex "FE 09 00" = Except.ok [0xFE, 0x09, 0x00] ∧
    (∀ path, sendHexPayload path "FE9" =
      (Except.error SendError.MalformedInput, [])) ∧
    (∀ s path,
      ((s.toList.filter (fun c => ¬ c.isWhitespace)).length % 2 = 1 ∨
        ∃ c ∈ s.toList.filter (fun c => ¬ c.isWhitespace),
          hexDigitVal c = none) →
      sendHexPayload path s = (Except.error SendError.MalformedInput, [])) := by
  refine ⟨by decide, fun path => ?_, fun s path h => ?_⟩
  · simp [sendHexPayload,
      show decodeHex "FE9" = Except.error SendError.MalformedInput from
        by decide]
  unfold sendHexPayload decodeHex
  rw [hexPairs_malformed _ h]

/-- C7, witness: the general rejection applied to the concrete
odd-length input FE9. -/
theorem c7_witness :
    (("FE9".toList.filter (fun c => ¬ c.isWhitespace)).length % 2 = 1 ∨
      ∃ c ∈ "FE9".toList.filter (fun c => ¬ c.isWhitespace),
        hexDigitVal c = none) ∧
    sendHexPayload "/dev/ttyUSB0" "FE9" =
      (Except.error SendError.MalformedInput, []) :=
  ⟨Or.inl (by decide),
    c7_hex_decoder.2.2 "FE9" "/dev/ttyUSB0" (Or.inl (by decide))⟩

/-- C8: evaluation of the fixed heartbeat array at the documented
layout — byte 0 is 0xFE and byte 1 (the payload length) is 9, but the
array holds 13 bytes, not the length + 8 = 17 bytes the documented
frame layout requires: the payload is truncated. -/
theorem c8_heartbeat_layout :
    heartbeatData[0]? = some 0xFE ∧
    heartbeatData[1]? = some 9 ∧
    heartbeatData.length = 13 ∧
    heartbeatData.length ≠ 9 + 8 := by
  decide

/-- C9: processing one MavlinkDataUpdate event keeps the log at no
more than 20 entries (given it held at most 20 before), and an
appended entry follows the slice of the last 19 prior entries — a
suffix of the prior log, in arrival order, of length min(prior, 19) —
so the oldest entries are the ones dropped. -/
theorem c9_log_bounded (log : List LogEntry)
    (p : Except Unit (Option MavlinkData)) (t : String)
    (h : log.length ≤ 20) :
    (onMavlinkDataUpdate log p t).length ≤ 20 ∧
    (∀ d : MavlinkData, 0 < d.length →
      onMavlinkDataUpdate log (Except.ok (some d)) t =
        jsSliceLast 19 log ++ [⟨d, t⟩] ∧
      (jsSliceLast 19 log).IsSuffix log ∧
      (jsSliceLast 19 log).length = min log.length 19) := by
  constructor
  · match p with
    | Except.error e => simpa [onMavlinkDataUpdate] using h
    | Except.ok none => simpa [onMavlinkDataUpdate] using h
    | Except.ok (some d) =>
      by_cases hd : 0 < d.length
      · simp only [onMavlinkDataUpdate, hd, if_true, jsSliceLast,
          List.length_append, List.length_drop, List.length_singleton]
        omega
      · simpa [onMavlinkDataUpdate, hd] using h
  · intro d hd
    refine ⟨by simp [onMavlinkDataUpdate, hd], List.drop_suffix _ _, ?_⟩
    simp only [jsSliceLast, List.length_drop]
    omega

/-- C9, witness: the bound and append shape applied to a concrete
20-entry log receiving a one-key sample. -/
theorem c9_witness :
    (List.replicate 20 (LogEntry.mk [("k", "v")] "t0")).length ≤ 20 ∧
    ((onMavlinkDataUpdate (List.replicate 20 (LogEntry.mk [("k", "v")] "t0"))
        (Except.ok (some [("k", "v")])) "t1").length ≤ 20 ∧
     (∀ d : MavlinkData, 0 < d.length →
        onMavlinkDataUpdate (List.replicate 20 (LogEntry.mk [("k", "v")] "t0"))
            (Except.ok (some d)) "t1" =
          jsSliceLast 19 (List.replicate 20 (LogEntry.mk [("k", "v")] "t0")) ++
            [⟨d, "t1"⟩] ∧
        (jsSliceLast 19 (List.replicate 20 (LogEntry.mk [("k", "v")] "t0"))).IsSuffix
          (List.replicate 20 (LogEntry.mk [("k", "v")] "t0")) ∧
        (jsSliceLast 19
          (List.replicate 20 (LogEntry.mk [("k", "v")] "t0"))).length =
          min (List.replicate 20 (LogEntry.mk [("k", "v")] "t0")).length 19)) :=
  ⟨by decide,
    c9_log_bounded (List.replicate 20 (LogEntry.mk [("k", "v")] "t0"))
      (Except.ok (some [("k", "v")])) "t1" (by decide)⟩

/-- C10: a MavlinkDataUpdate event whose payload throws on JSON.parse,
parses to null, or parses to a value with zero keys leaves the
telemetry log unchanged. -/
theorem c10_bad_payload_dropped (log : List LogEntry) (t : String) :
    onMavlinkDataUpdate log (Except.error ()) t = log ∧
    onMavlinkDataUpdate log (Except.ok none) t = log ∧
    onMavlinkDataUpdate log (Except.ok (some ([] : MavlinkData))) t = log := by
  refine ⟨rfl, rfl, ?_⟩
  simp [onMavlinkDataUpdate, List.length]

end Mavlink
